import Mathlib

/-!
Verification development for the BESS UnixSocketPort driver
(`src/core/drivers/unix_socket.cc`).

The driver is shallowly embedded: the port's mutable members become a
`PortState` record, the kernel file-descriptor table becomes an explicit
association list from descriptor numbers to kernel socket-object ids, the
external packet-buffer allocator becomes an explicit pool with ghost
accounting of allocated/freed buffer ids, and the results of the
`recv`/`sendmsg` system calls are supplied by the caller as an oracle
(a finite trace of events for `recv`, a success predicate for `sendmsg`).
Detached acceptance threads are modelled by a ghost counter of launched
acceptance tasks.
-/

/-- Constant `RECV_SKIP_TICKS` from unix_socket.cc line 40: number of poll
cycles skipped after an empty poll. -/
def RECV_SKIP_TICKS : Nat := 256

/-- Constant `MAX_TX_FRAGS` from unix_socket.cc line 41; defined but never
used by the transmit path. -/
def MAX_TX_FRAGS : Nat := 8

/-- EINVAL error code, used by `Init` for a bad queue count. -/
def EINVAL : Nat := 22

/-- Modelled from the spec: `kNotConnectedFd` is declared in
`unix_socket.h`, which is not under src/.  The spec calls it the sentinel
"not connected" value of the client slot; `DeInit` (unix_socket.cc line
150) closes the client descriptor only when `client_fd_ >= 0`, so the
sentinel is a negative number.  We use the conventional -1. -/
def kNotConnectedFd : Int := -1

/-- The mutable members of `UnixSocketPort`: `listen_fd_`, `client_fd_`,
`old_client_fd_`, `recv_skip_cnt_`, plus a ghost counter of acceptance
tasks launched so far (each `std::thread(AcceptThreadMain, ...)` spawn
increments it). -/
structure PortState where
  listen_fd : Int
  client_fd : Int
  old_client_fd : Int
  recv_skip_cnt : Nat
  accept_tasks : Nat
deriving DecidableEq

/-- The kernel descriptor table: an association list from descriptor
numbers to kernel socket-object ids.  Only nonnegative numbers denote
valid descriptors. -/
def FdTable := List (Int × Nat)

instance : DecidableEq FdTable := by
  unfold FdTable
  infer_instance

/-- Kernel lookup of a descriptor number. -/
def lookupFd : FdTable → Int → Option Nat
  | [], _ => none
  | (f, o) :: rest, fd => if f = fd then some o else lookupFd rest fd

/-- Kernel `close(fd)`: removes the binding of `fd`. -/
def closeFd : FdTable → Int → FdTable
  | [], _ => []
  | (f, o) :: rest, fd =>
      if f = fd then closeFd rest fd else (f, o) :: closeFd rest fd

/-- Kernel `dup2(oldfd, newfd)`: makes `newfd` refer to the object of
`oldfd`, implicitly closing whatever `newfd` referred to.  Fails (EBADF,
no effect) when `oldfd` is not open or `newfd` is not a valid descriptor
number (negative). -/
def dup2Fd (t : FdTable) (oldfd newfd : Int) : FdTable :=
  match lookupFd t oldfd with
  | none => t
  | some obj => if newfd < 0 then t else (newfd, obj) :: closeFd t newfd

/-- `UnixSocketPort::CloseConnection` (unix_socket.cc lines 80-88): keep
the current client descriptor in `old_client_fd_` (it may still be in use
by a concurrent transmit), mark the client slot not connected, and
relaunch the accept thread (ghost counter increment). -/
def CloseConnection (st : PortState) : PortState :=
  { st with
    old_client_fd := st.client_fd
    client_fd := kNotConnectedFd
    accept_tasks := st.accept_tasks + 1 }

/-- `UnixSocketPort::AcceptNewClient` (unix_socket.cc lines 43-68) after
its `accept4` retry loop has succeeded: `ret` is the fresh descriptor
returned by `accept4` for the new connection object `conn` (the kernel
binds `ret` to `conn` in the table).  Then `recv_skip_cnt_` is reset and,
if `old_client_fd_` is not the sentinel, the code runs
`dup2(ret, client_fd_); close(ret);` — note it targets `client_fd_`, not
`old_client_fd_` — otherwise it stores `ret` in `client_fd_`. -/
def AcceptNewClient (st : PortState) (t : FdTable) (ret : Int) (conn : Nat) :
    PortState × FdTable :=
  let t0 : FdTable := (ret, conn) :: t
  let st1 := { st with recv_skip_cnt := 0 }
  if st1.old_client_fd ≠ kNotConnectedFd then
    let t1 := dup2Fd t0 ret st1.client_fd
    let t2 := closeFd t1 ret
    (st1, t2)
  else
    ({ st1 with client_fd := ret }, t0)

/-- Result of a port command, carrying only the errno on failure
(`CommandFailure(errno, ...)`) since the message text is irrelevant
here. -/
inductive CommandResponse
  | success
  | failure (err : Nat)
deriving DecidableEq

/-- System calls `Init` may perform, in order, for tracking that the
queue-count check precedes them all. -/
inductive Syscall
  | socket
  | bindSock
  | listenSock
deriving DecidableEq

/-- Oracle for the OS results seen by `Init`: the return value of
`socket` (a descriptor, or negative on failure) and of `bind`/`listen`
(negative on failure), with the corresponding errno values. -/
structure InitEnv where
  socketRes : Int
  socketErrno : Nat
  bindRes : Int
  bindErrno : Nat
  listenRes : Int
  listenErrno : Nat
deriving DecidableEq

/-- Outcome of `Init`: the command response, the new port state, and the
trace of socket-related system calls actually performed. -/
structure InitResult where
  resp : CommandResponse
  st : PortState
  calls : List Syscall
deriving DecidableEq

/-- `UnixSocketPort::Init` (unix_socket.cc lines 90-145).  `num_txq` and
`num_rxq` come from the base Port's `num_queues` array.  Address-string
formatting (lines 111-129) touches only `addr_`, which no claim concerns,
and is elided.  On full success the accept thread is launched (ghost
counter increment). -/
def Init (st0 : PortState) (num_txq num_rxq : Nat) (env : InitEnv) : InitResult :=
  let st := { st0 with client_fd := kNotConnectedFd, old_client_fd := kNotConnectedFd }
  if num_txq > 1 ∨ num_rxq > 1 then
    ⟨CommandResponse.failure EINVAL, st, []⟩
  else if env.socketRes < 0 then
    ⟨CommandResponse.failure env.socketErrno, st, [Syscall.socket]⟩
  else
    let st1 := { st with listen_fd := env.socketRes }
    if env.bindRes < 0 then
      ⟨CommandResponse.failure env.bindErrno, st1, [Syscall.socket, Syscall.bindSock]⟩
    else if env.listenRes < 0 then
      ⟨CommandResponse.failure env.listenErrno, st1,
        [Syscall.socket, Syscall.bindSock, Syscall.listenSock]⟩
    else
      ⟨CommandResponse.success, { st1 with accept_tasks := st1.accept_tasks + 1 },
        [Syscall.socket, Syscall.bindSock, Syscall.listenSock]⟩

/-- `UnixSocketPort::DeInit` (unix_socket.cc lines 147-153): close the
listening descriptor, and the client descriptor when `client_fd_ >= 0`. -/
def DeInit (st : PortState) (t : FdTable) : FdTable :=
  let t1 := closeFd t st.listen_fd
  if 0 ≤ st.client_fd then closeFd t1 st.client_fd else t1

/-- The errno values `RecvPackets` distinguishes; every other errno is
`other`. -/
inductive Errno
  | EAGAIN
  | EWOULDBLOCK
  | EINTR
  | other (n : Nat)
deriving DecidableEq

/-- Result of one `recv(2)` call, supplied by the environment:
`ok n` is a return value of `n` bytes (`n = 0` is an orderly shutdown),
`err e` is a return value `< 0` with errno `e`. -/
inductive RecvRes
  | ok (n : Nat)
  | err (e : Errno)
deriving DecidableEq

/-- The external packet-buffer allocator (`bess::Packet::Alloc` /
`bess::Packet::Free`): a pool with `avail` free buffers, handing out
fresh buffer ids from `nextId`, with ghost lists of the ids it has handed
out (`allocated`) and taken back (`freed`), in order. -/
structure Alloc where
  avail : Nat
  nextId : Nat
  allocated : List Nat
  freed : List Nat
deriving DecidableEq

/-- `bess::Packet::Alloc()`: none when the pool is exhausted, otherwise a
fresh buffer id. -/
def Alloc.alloc (al : Alloc) : Option (Nat × Alloc) :=
  match al.avail with
  | 0 => none
  | n + 1 =>
      some (al.nextId,
        { al with
          avail := n
          nextId := al.nextId + 1
          allocated := al.allocated ++ [al.nextId] })

/-- `bess::Packet::Free(pkt)`: the buffer returns to the pool. -/
def Alloc.free (al : Alloc) (id : Nat) : Alloc :=
  { al with avail := al.avail + 1, freed := al.freed ++ [id] }

/-- Outcome of a `RecvPackets` call: the new port state, the new
allocator state, the received packets (buffer id, byte count) in
delivery order, and the number of `recv` system calls performed. -/
structure RecvOutcome where
  st : PortState
  al : Alloc
  pkts : List (Nat × Nat)
  reads : Nat
deriving DecidableEq

/-- The `while (received < cnt)` loop of `UnixSocketPort::RecvPackets`
(unix_socket.cc lines 167-200).  `evs` is the finite trace of kernel
`recv` results; an exhausted trace behaves like a would-block (the loop
frees the buffer it just allocated and stops).  Each iteration first
checks the count, then allocates (stopping if the allocator is
exhausted), then consumes one `recv` event: a positive byte count appends
the packet; otherwise the buffer is freed and the loop breaks on
EAGAIN/EWOULDBLOCK, retries on EINTR, and invokes `CloseConnection` and
breaks on anything else (including a 0 return). -/
def recvLoop (cnt : Nat) :
    List RecvRes → PortState → Alloc → List (Nat × Nat) → Nat → RecvOutcome
  | [], st, al, acc, reads =>
      if acc.length < cnt then
        match al.alloc with
        | none => ⟨st, al, acc, reads⟩
        | some (id, al1) => ⟨st, al1.free id, acc, reads⟩
      else ⟨st, al, acc, reads⟩
  | RecvRes.ok n :: rest, st, al, acc, reads =>
      if acc.length < cnt then
        match al.alloc with
        | none => ⟨st, al, acc, reads⟩
        | some (id, al1) =>
          if 0 < n then recvLoop cnt rest st al1 (acc ++ [(id, n)]) (reads + 1)
          else ⟨CloseConnection st, al1.free id, acc, reads + 1⟩
      else ⟨st, al, acc, reads⟩
  | RecvRes.err e :: rest, st, al, acc, reads =>
      if acc.length < cnt then
        match al.alloc with
        | none => ⟨st, al, acc, reads⟩
        | some (id, al1) =>
          if e = Errno.EAGAIN ∨ e = Errno.EWOULDBLOCK then
            ⟨st, al1.free id, acc, reads + 1⟩
          else if e = Errno.EINTR then
            recvLoop cnt rest st (al1.free id) acc (reads + 1)
          else ⟨CloseConnection st, al1.free id, acc, reads + 1⟩
      else ⟨st, al, acc, reads⟩

/-- `UnixSocketPort::RecvPackets` (unix_socket.cc lines 155-207): return
empty when not connected; when the poll-skip budget is nonzero, decrement
it and return empty without reading; otherwise run the receive loop and,
when it produced no packet, set the budget to `RECV_SKIP_TICKS`. -/
def RecvPackets (st : PortState) (al : Alloc) (cnt : Nat) (evs : List RecvRes) :
    RecvOutcome :=
  if st.client_fd = kNotConnectedFd then ⟨st, al, [], 0⟩
  else if st.recv_skip_cnt ≠ 0 then
    ⟨{ st with recv_skip_cnt := st.recv_skip_cnt - 1 }, al, [], 0⟩
  else if (recvLoop cnt evs st al [] 0).pkts.length = 0 then
    ⟨{ (recvLoop cnt evs st al [] 0).st with recv_skip_cnt := RECV_SKIP_TICKS },
      (recvLoop cnt evs st al [] 0).al,
      (recvLoop cnt evs st al [] 0).pkts,
      (recvLoop cnt evs st al [] 0).reads⟩
  else recvLoop cnt evs st al [] 0

/-- One segment of a packet's segment chain (external packet
representation): its in-memory data pointer (`head_data()`, abstracted to
a number) and its length (`head_len()`). -/
structure TxSeg where
  head_data : Nat
  head_len : Nat
deriving DecidableEq

/-- A multi-segment packet: its segment chain in `next()` order.  The
packet's `nb_segs()` field equals the chain length (packet-representation
invariant). -/
structure TxPacket where
  segs : List TxSeg
deriving DecidableEq

/-- `pkt->nb_segs()`. -/
def TxPacket.nb_segs (p : TxPacket) : Nat := p.segs.length

/-- The iovec-filling loop of `SendPackets` (unix_socket.cc lines
226-230): `for (j = 0; j < nb_segs; j++) { iov[j] = ...; pkt = pkt->next(); }`,
walking the chain for `nb_segs` steps. -/
def buildIovLoop : Nat → List TxSeg → List (Nat × Nat)
  | 0, _ => []
  | _ + 1, [] => []
  | j + 1, s :: rest => (s.head_data, s.head_len) :: buildIovLoop j rest

/-- The scatter list built for one packet: `nb_segs` entries walked off
the segment chain. -/
def buildIov (p : TxPacket) : List (Nat × Nat) := buildIovLoop p.nb_segs p.segs

/-- The send loop of `SendPackets` (unix_socket.cc lines 214-238):
`sendOk i` tells whether the `sendmsg` for the i-th packet of the batch
succeeds.  Returns the number of packets sent and the scatter lists
passed to `sendmsg`, in order (the failing attempt included). -/
def sendLoop (sendOk : Nat → Bool) : Nat → List TxPacket → Nat × List (List (Nat × Nat))
  | _, [] => (0, [])
  | i, p :: rest =>
    let iov := buildIov p
    if sendOk i then
      let r := sendLoop sendOk (i + 1) rest
      (r.1 + 1, iov :: r.2)
    else (0, [iov])

/-- Outcome of a `SendPackets` call: the port state afterwards, the count
returned, the scatter lists handed to `sendmsg` in order, and the packets
released to the allocator. -/
structure TxOutcome where
  st : PortState
  sent : Nat
  msgs : List (List (Nat × Nat))
  freed : List TxPacket
deriving DecidableEq

/-- `UnixSocketPort::SendPackets` (unix_socket.cc lines 209-245): run the
send loop, then `if (sent) bess::Packet::Free(pkts, sent)` releases the
first `sent` packets.  No port member is written on any path. -/
def SendPackets (st : PortState) (sendOk : Nat → Bool) (pkts : List TxPacket) :
    TxOutcome :=
  let r := sendLoop sendOk 0 pkts
  { st := st, sent := r.1, msgs := r.2, freed := pkts.take r.1 }

/-- Buffer ids `start, start+1, ..., start+n-1`, for stating which ids an
execution allocated. -/
def idsFrom (start : Nat) : Nat → List Nat
  | 0 => []
  | n + 1 => start :: idsFrom (start + 1) n

/-- One scheduler invocation of the receive path under a fixed
environment, viewed as a transformation of the port state: used to
iterate `RecvPackets` calls. -/
def recvStep (al : Alloc) (cnt : Nat) (evs : List RecvRes) (s : PortState) : PortState :=
  (RecvPackets s al cnt evs).st

/-! ## Helper lemmas -/

theorem lookupFd_closeFd (t : FdTable) (x fd : Int) :
    lookupFd (closeFd t x) fd = if fd = x then none else lookupFd t fd := by
  induction t with
  | nil => simp [closeFd, lookupFd]
  | cons hd tl ih =>
      obtain ⟨f, o⟩ := hd
      by_cases hfx : f = x
      · subst hfx
        by_cases hfd : fd = f
        · subst hfd
          simp [closeFd, lookupFd, ih]
        · simp [closeFd, lookupFd, ih, hfd, Ne.symm hfd]
      · by_cases hfd : f = fd
        · subst hfd
          simp [closeFd, lookupFd, hfx, ih, Ne.symm hfx]
        · simp [closeFd, lookupFd, hfx, hfd, ih]

theorem buildIovLoop_map (l : List TxSeg) :
    buildIovLoop l.length l = l.map (fun s => (s.head_data, s.head_len)) := by
  induction l with
  | nil => rfl
  | cons s rest ih => simp [buildIovLoop, ih]

theorem sendLoop_fail_at (sendOk : Nat → Bool) :
    ∀ (pkts : List TxPacket) (i k : Nat), k < pkts.length →
      (∀ j, j < k → sendOk (i + j) = true) → sendOk (i + k) = false →
      sendLoop sendOk i pkts = (k, (pkts.take (k + 1)).map buildIov) := by
  intro pkts
  induction pkts with
  | nil =>
      intro i k hk _ _
      exact absurd hk (Nat.not_lt_zero k)
  | cons p rest ih =>
      intro i k hk hok hfail
      cases k with
      | zero =>
          have h0 : sendOk i = false := by simpa using hfail
          simp [sendLoop, h0]
      | succ k' =>
          have h0 : sendOk i = true := by simpa using hok 0 (Nat.succ_pos k')
          have hrec := ih (i + 1) k' (by simpa using Nat.lt_of_succ_lt_succ hk)
            (fun j hj => by
              have h := hok (j + 1) (by omega)
              have e : i + (j + 1) = i + 1 + j := by omega
              rw [e] at h
              exact h)
            (by
              have h := hfail
              have e : i + (k' + 1) = i + 1 + k' := by omega
              rw [e] at h
              exact h)
          simp [sendLoop, h0, hrec]

theorem recv_skip_call (st : PortState) (al : Alloc) (cnt : Nat) (evs : List RecvRes)
    (hc : st.client_fd ≠ kNotConnectedFd) (hs : st.recv_skip_cnt ≠ 0) :
    RecvPackets st al cnt evs =
      ⟨{ st with recv_skip_cnt := st.recv_skip_cnt - 1 }, al, [], 0⟩ := by
  unfold RecvPackets
  rw [if_neg hc, if_pos hs]

theorem recvLoop_avail_zero (cnt : Nat) (evs : List RecvRes) (st : PortState) (al : Alloc)
    (acc : List (Nat × Nat)) (reads : Nat) (ha : al.avail = 0) :
    recvLoop cnt evs st al acc reads = ⟨st, al, acc, reads⟩ := by
  cases evs with
  | nil => simp [recvLoop, Alloc.alloc, ha]
  | cons ev rest =>
      cases ev with
      | ok n => simp [recvLoop, Alloc.alloc, ha]
      | err e => simp [recvLoop, Alloc.alloc, ha]

theorem recv_skip_iterate (al : Alloc) (cnt : Nat) (evs : List RecvRes) :
    ∀ (k : Nat) (st : PortState), st.client_fd ≠ kNotConnectedFd → k ≤ st.recv_skip_cnt →
      Nat.iterate (recvStep al cnt evs) k st =
        { st with recv_skip_cnt := st.recv_skip_cnt - k } := by
  intro k
  induction k with
  | zero => intro st hc hk; rfl
  | succ k ih =>
      intro st hc hk
      obtain ⟨lf, cf, ocf, rsc, tk⟩ := st
      rw [Function.iterate_succ_apply]
      have hstep : recvStep al cnt evs ⟨lf, cf, ocf, rsc, tk⟩ = ⟨lf, cf, ocf, rsc - 1, tk⟩ := by
        unfold recvStep
        rw [recv_skip_call _ al cnt evs hc (by simp at hk ⊢; omega)]
      rw [hstep, ih ⟨lf, cf, ocf, rsc - 1, tk⟩ hc (by simp at hk ⊢; omega)]
      simp
      omega

theorem recv_idle_call (st : PortState) (al : Alloc) (cnt : Nat) (evs2 : List RecvRes)
    (hc : st.client_fd ≠ kNotConnectedFd) (hs : st.recv_skip_cnt = 0)
    (ha : al.avail ≠ 0) (hcnt : cnt ≠ 0) :
    RecvPackets st al cnt (RecvRes.err Errno.EAGAIN :: evs2) =
      ⟨{ st with recv_skip_cnt := RECV_SKIP_TICKS },
        { al with nextId := al.nextId + 1,
                  allocated := al.allocated ++ [al.nextId],
                  freed := al.freed ++ [al.nextId] }, [], 1⟩ := by
  obtain ⟨m, hm⟩ : ∃ m, al.avail = m + 1 := ⟨al.avail - 1, by omega⟩
  unfold RecvPackets
  rw [if_neg hc, if_neg (by simp [hs])]
  simp [recvLoop, Alloc.alloc, hm, Alloc.free, Nat.pos_of_ne_zero hcnt]

theorem alloc_some (al : Alloc) (id : Nat) (al1 : Alloc) (h : al.alloc = some (id, al1)) :
    id = al.nextId ∧
    al1 = { al with
              avail := al.avail - 1
              nextId := al.nextId + 1
              allocated := al.allocated ++ [al.nextId] } ∧
    al.avail ≠ 0 := by
  unfold Alloc.alloc at h
  rcases hav : al.avail with _ | m
  · rw [hav] at h
    simp at h
  · rw [hav] at h
    simp at h
    obtain ⟨h1, h2⟩ := h
    refine ⟨h1.symm, ?_, by omega⟩
    rw [← h2]
    simp [hav]

theorem recvLoop_data_then_err (e : Errno) (rest : List RecvRes)
    (he1 : e ≠ Errno.EAGAIN) (he2 : e ≠ Errno.EWOULDBLOCK) (he3 : e ≠ Errno.EINTR) :
    ∀ (ns : List Nat) (st : PortState) (al : Alloc) (acc : List (Nat × Nat))
      (reads cnt : Nat),
      (∀ n ∈ ns, 0 < n) → acc.length + ns.length < cnt → ns.length < al.avail →
      recvLoop cnt (ns.map RecvRes.ok ++ RecvRes.err e :: rest) st al acc reads =
        ⟨CloseConnection st,
          { avail := al.avail - ns.length
            nextId := al.nextId + ns.length + 1
            allocated := al.allocated ++ idsFrom al.nextId (ns.length + 1)
            freed := al.freed ++ [al.nextId + ns.length] },
          acc ++ (idsFrom al.nextId ns.length).zip ns,
          reads + ns.length + 1⟩ := by
  intro ns
  induction ns with
  | nil =>
      intro st al acc reads cnt hpos hlen havail
      obtain ⟨av, nid, alc, frd⟩ := al
      simp at havail hlen
      obtain ⟨m, hm⟩ : ∃ m, av = m + 1 := ⟨av - 1, by omega⟩
      subst hm
      simp [recvLoop, Alloc.alloc, Alloc.free, he1, he2, he3, idsFrom, hlen]
  | cons n ns ih =>
      intro st al acc reads cnt hpos hlen havail
      obtain ⟨av, nid, alc, frd⟩ := al
      simp at havail hlen
      obtain ⟨m, hm⟩ : ∃ m, av = m + 1 := ⟨av - 1, by omega⟩
      subst hm
      have hn : 0 < n := hpos n (List.mem_cons_self n ns)
      have hrec := ih st ⟨m, nid + 1, alc ++ [nid], frd⟩ (acc ++ [(nid, n)]) (reads + 1) cnt
        (fun x hx => hpos x (List.mem_cons_of_mem n hx))
        (by simp; omega) (by simp; omega)
      simp only [List.map_cons, List.cons_append]
      simp only [recvLoop, Alloc.alloc, Alloc.free]
      rw [if_pos (by simpa using (by omega : acc.length < cnt))]
      simp only [hn, if_pos]
      rw [hrec]
      simp [idsFrom, List.append_assoc]
      omega

theorem recvLoop_accounting (cnt : Nat) :
    ∀ (evs : List RecvRes) (st : PortState) (al : Alloc) (acc : List (Nat × Nat))
      (reads : Nat),
      ∃ P L F,
        (recvLoop cnt evs st al acc reads).pkts = acc ++ P ∧
        (recvLoop cnt evs st al acc reads).al.allocated = al.allocated ++ L ∧
        (recvLoop cnt evs st al acc reads).al.freed = al.freed ++ F ∧
        List.Perm L (P.map Prod.fst ++ F) := by
  intro evs
  induction evs with
  | nil =>
      intro st al acc reads
      by_cases hlt : acc.length < cnt
      · rcases h : al.alloc with _ | ⟨id, al1⟩
        · exact ⟨[], [], [], by simp [recvLoop, hlt, h]⟩
        · obtain ⟨hid, hal1, _⟩ := alloc_some al id al1 h
          subst hid
          refine ⟨[], [al.nextId], [al.nextId], ?_⟩
          simp [recvLoop, hlt, h, hal1, Alloc.free]
      · exact ⟨[], [], [], by simp [recvLoop, hlt]⟩
  | cons ev rest ih =>
      intro st al acc reads
      by_cases hlt : acc.length < cnt
      · rcases h : al.alloc with _ | ⟨id, al1⟩
        · exact ⟨[], [], [], by cases ev <;> simp [recvLoop, hlt, h]⟩
        · obtain ⟨hid, hal1, _⟩ := alloc_some al id al1 h
          subst hid
          cases ev with
          | ok n =>
              by_cases hn : 0 < n
              · obtain ⟨P, L, F, hP, hL, hF, hperm⟩ :=
                  ih st al1 (acc ++ [(al.nextId, n)]) (reads + 1)
                refine ⟨(al.nextId, n) :: P, al.nextId :: L, F, ?_, ?_, ?_, ?_⟩
                · simp [recvLoop, hlt, h, hn, hP]
                · simp only [recvLoop, hlt, if_pos, h, hn, if_true]
                  rw [hL, hal1]
                  simp
                · simp only [recvLoop, hlt, if_pos, h, hn, if_true]
                  rw [hF, hal1]
                · simpa using hperm.cons al.nextId
              · refine ⟨[], [al.nextId], [al.nextId], ?_⟩
                simp [recvLoop, hlt, h, hn, hal1, Alloc.free]
          | err e =>
              by_cases hb : e = Errno.EAGAIN ∨ e = Errno.EWOULDBLOCK
              · refine ⟨[], [al.nextId], [al.nextId], ?_⟩
                simp [recvLoop, hlt, h, hb, hal1, Alloc.free]
              · by_cases hi : e = Errno.EINTR
                · subst hi
                  obtain ⟨P, L, F, hP, hL, hF, hperm⟩ :=
                    ih st (al1.free al.nextId) acc (reads + 1)
                  refine ⟨P, al.nextId :: L, al.nextId :: F, ?_, ?_, ?_, ?_⟩
                  · simp [recvLoop, hlt, h, hP]
                  · simp only [recvLoop]
                    simp [hlt, h]
                    rw [hL]
                    simp [Alloc.free, hal1]
                  · simp only [recvLoop]
                    simp [hlt, h]
                    rw [hF]
                    simp [Alloc.free, hal1]
                  · exact (hperm.cons al.nextId).trans List.perm_middle.symm
                · refine ⟨[], [al.nextId], [al.nextId], ?_⟩
                  simp [recvLoop, hlt, h, hb, hi, hal1, Alloc.free]
      · exact ⟨[], [], [], by cases ev <;> simp [recvLoop, hlt]⟩

/-! ## Claim theorems -/

/-- C1: a full connect / disconnect / reconnect cycle, executed against the
code of `AcceptNewClient` and `CloseConnection`.  At the reconnect the code
runs `dup2(ret, client_fd_)` with `client_fd_` equal to the sentinel (the
closure transition just set it so), which fails with EBADF, then closes the
freshly accepted descriptor.  The result: the client slot stays at the
sentinel (the port is NOT left Connected), the new connection object (2) is
reachable from no descriptor, and the old slot's number 4 still refers to
the dead connection — contradicting the claim that the new connection comes
to occupy the old descriptor number and the port is Connected. -/
theorem C1_reconnect_leaves_port_disconnected :
    (AcceptNewClient
        (CloseConnection (AcceptNewClient ⟨3, kNotConnectedFd, kNotConnectedFd, 0, 1⟩
            [(3, 0)] 4 1).1)
        (AcceptNewClient ⟨3, kNotConnectedFd, kNotConnectedFd, 0, 1⟩ [(3, 0)] 4 1).2
        5 2).1.client_fd = kNotConnectedFd ∧
    (AcceptNewClient ⟨3, kNotConnectedFd, kNotConnectedFd, 0, 1⟩ [(3, 0)] 4 1).1.client_fd = 4 ∧
    (CloseConnection (AcceptNewClient ⟨3, kNotConnectedFd, kNotConnectedFd, 0, 1⟩
        [(3, 0)] 4 1).1).old_client_fd = 4 ∧
    (AcceptNewClient
        (CloseConnection (AcceptNewClient ⟨3, kNotConnectedFd, kNotConnectedFd, 0, 1⟩
            [(3, 0)] 4 1).1)
        (AcceptNewClient ⟨3, kNotConnectedFd, kNotConnectedFd, 0, 1⟩ [(3, 0)] 4 1).2
        5 2).2 = [(4, 1), (3, 0)] ∧
    lookupFd (AcceptNewClient
        (CloseConnection (AcceptNewClient ⟨3, kNotConnectedFd, kNotConnectedFd, 0, 1⟩
            [(3, 0)] 4 1).1)
        (AcceptNewClient ⟨3, kNotConnectedFd, kNotConnectedFd, 0, 1⟩ [(3, 0)] 4 1).2
        5 2).2 5 = none := by
  decide

/-- C2 counterexample: a connected port (client descriptor 7) whose single
`sendmsg` fails.  `SendPackets` returns with the port state unchanged: the
client slot is not set to the sentinel, the descriptor is not moved to the
retiring slot, and no acceptance task is launched — the claimed closure
transition does not happen. -/
theorem C2_counterexample :
    (PortState.mk 3 7 kNotConnectedFd 0 2).client_fd ≠ kNotConnectedFd ∧
    (SendPackets ⟨3, 7, kNotConnectedFd, 0, 2⟩ (fun _ => false)
        [⟨[⟨100, 60⟩]⟩]).sent = 0 ∧
    ¬ ((SendPackets ⟨3, 7, kNotConnectedFd, 0, 2⟩ (fun _ => false)
          [⟨[⟨100, 60⟩]⟩]).st.client_fd = kNotConnectedFd ∧
       (SendPackets ⟨3, 7, kNotConnectedFd, 0, 2⟩ (fun _ => false)
          [⟨[⟨100, 60⟩]⟩]).st.old_client_fd = 7 ∧
       (SendPackets ⟨3, 7, kNotConnectedFd, 0, 2⟩ (fun _ => false)
          [⟨[⟨100, 60⟩]⟩]).st.accept_tasks = 2 + 1) := by
  decide

/-- C2 (amended): on a send failure `SendPackets` stops the batch and
returns, performing no closure transition at all — every port member
(client slot, retiring slot, poll budget, acceptance-task count) is left
exactly as it was; closure is detected only by the receive path. -/
theorem C2_send_failure_no_closure (st : PortState) (sendOk : Nat → Bool)
    (pkts : List TxPacket) :
    (SendPackets st sendOk pkts).st = st := rfl

/-- C3: if the sends for the first k packets of a batch succeed and the
send of packet k+1 fails, `SendPackets` returns k, releases exactly the
first k packets, and the scatter lists handed to `sendmsg` are exactly
those of the first k+1 packets in caller-supplied order (so no packet
after the failing one is attempted, and packets k+1..cnt are not
released). -/
theorem C3_partial_batch (st : PortState) (sendOk : Nat → Bool)
    (pkts : List TxPacket) (k : Nat) (hk : k < pkts.length)
    (hok : ∀ j, j < k → sendOk j = true) (hfail : sendOk k = false) :
    (SendPackets st sendOk pkts).sent = k ∧
    (SendPackets st sendOk pkts).freed = pkts.take k ∧
    (SendPackets st sendOk pkts).msgs = (pkts.take (k + 1)).map buildIov := by
  have h := sendLoop_fail_at sendOk pkts 0 k hk
    (fun j hj => by simpa using hok j hj) (by simpa using hfail)
  simp [SendPackets, h]

/-- C3 witness: a batch of 5 one-segment packets whose 3rd send fails:
transmit returns 2, packets 1-2 are released, 3 scatter lists were
attempted. -/
theorem C3_partial_batch_witness :
    2 < ([⟨[⟨0, 10⟩]⟩, ⟨[⟨1, 10⟩]⟩, ⟨[⟨2, 10⟩]⟩, ⟨[⟨3, 10⟩]⟩,
          ⟨[⟨4, 10⟩]⟩] : List TxPacket).length ∧
    (∀ j, j < 2 → (fun i => decide (i < 2)) j = true) ∧
    (fun i => decide (i < 2)) 2 = false ∧
    ((SendPackets ⟨3, 7, kNotConnectedFd, 0, 1⟩ (fun i => decide (i < 2))
        [⟨[⟨0, 10⟩]⟩, ⟨[⟨1, 10⟩]⟩, ⟨[⟨2, 10⟩]⟩, ⟨[⟨3, 10⟩]⟩, ⟨[⟨4, 10⟩]⟩]).sent = 2 ∧
     (SendPackets ⟨3, 7, kNotConnectedFd, 0, 1⟩ (fun i => decide (i < 2))
        [⟨[⟨0, 10⟩]⟩, ⟨[⟨1, 10⟩]⟩, ⟨[⟨2, 10⟩]⟩, ⟨[⟨3, 10⟩]⟩, ⟨[⟨4, 10⟩]⟩]).freed =
       ([⟨[⟨0, 10⟩]⟩, ⟨[⟨1, 10⟩]⟩, ⟨[⟨2, 10⟩]⟩, ⟨[⟨3, 10⟩]⟩,
          ⟨[⟨4, 10⟩]⟩] : List TxPacket).take 2 ∧
     (SendPackets ⟨3, 7, kNotConnectedFd, 0, 1⟩ (fun i => decide (i < 2))
        [⟨[⟨0, 10⟩]⟩, ⟨[⟨1, 10⟩]⟩, ⟨[⟨2, 10⟩]⟩, ⟨[⟨3, 10⟩]⟩, ⟨[⟨4, 10⟩]⟩]).msgs =
       (([⟨[⟨0, 10⟩]⟩, ⟨[⟨1, 10⟩]⟩, ⟨[⟨2, 10⟩]⟩, ⟨[⟨3, 10⟩]⟩,
          ⟨[⟨4, 10⟩]⟩] : List TxPacket).take (2 + 1)).map buildIov) :=
  ⟨by decide, by decide, by decide,
    C3_partial_batch ⟨3, 7, kNotConnectedFd, 0, 1⟩ (fun i => decide (i < 2))
      [⟨[⟨0, 10⟩]⟩, ⟨[⟨1, 10⟩]⟩, ⟨[⟨2, 10⟩]⟩, ⟨[⟨3, 10⟩]⟩, ⟨[⟨4, 10⟩]⟩] 2
      (by decide) (by decide) (by decide)⟩

/-- C6: requesting more than one transmit or receive queue makes `Init`
fail with EINVAL before any socket-related system call is performed — the
syscall trace is empty, so no socket is created, bound, or listened on. -/
theorem C6_queue_check_first (st : PortState) (num_txq num_rxq : Nat)
    (env : InitEnv) (h : num_txq > 1 ∨ num_rxq > 1) :
    (Init st num_txq num_rxq env).resp = CommandResponse.failure EINVAL ∧
    (Init st num_txq num_rxq env).calls = [] := by
  simp [Init, h]

/-- C6 witness: two transmit queues are rejected with EINVAL and an empty
syscall trace. -/
theorem C6_queue_check_first_witness :
    ((2 : Nat) > 1 ∨ (0 : Nat) > 1) ∧
    ((Init ⟨0, 0, 0, 0, 0⟩ 2 0 ⟨9, 0, 0, 0, 0, 0⟩).resp =
        CommandResponse.failure EINVAL ∧
     (Init ⟨0, 0, 0, 0, 0⟩ 2 0 ⟨9, 0, 0, 0, 0, 0⟩).calls = []) :=
  ⟨by decide, C6_queue_check_first ⟨0, 0, 0, 0, 0⟩ 2 0 ⟨9, 0, 0, 0, 0, 0⟩ (by decide)⟩

/-- C7: for every packet the scatter list has exactly one entry per
segment of the chain, entry j holding segment j's data pointer and length
in chain order; and no bound from `MAX_TX_FRAGS` is enforced — witness a
9-segment packet whose scatter list has 9 entries, exceeding
`MAX_TX_FRAGS = 8`. -/
theorem C7_scatter_list_per_segment :
    (∀ p : TxPacket, buildIov p = p.segs.map (fun s => (s.head_data, s.head_len))) ∧
    (∃ p : TxPacket, MAX_TX_FRAGS < p.nb_segs ∧
      (buildIov p).length = p.nb_segs ∧ MAX_TX_FRAGS < (buildIov p).length) := by
  constructor
  · intro p
    exact buildIovLoop_map p.segs
  · exact ⟨⟨List.replicate 9 ⟨0, 1⟩⟩, by decide, by decide, by decide⟩

/-- C10: `DeInit` closes the listening descriptor and, when the client
slot holds a valid descriptor (`>= 0`), the client descriptor; every other
descriptor — in particular the retiring `old_client_fd_` — keeps exactly
the binding it had, so a retired descriptor remains open after teardown. -/
theorem C10_deinit_frame (st : PortState) (t : FdTable) (fd : Int)
    (h1 : fd ≠ st.listen_fd) (h2 : fd ≠ st.client_fd)
    (h3 : st.old_client_fd ≠ st.listen_fd) (h4 : st.old_client_fd ≠ st.client_fd) :
    lookupFd (DeInit st t) st.listen_fd = none ∧
    (0 ≤ st.client_fd → lookupFd (DeInit st t) st.client_fd = none) ∧
    lookupFd (DeInit st t) fd = lookupFd t fd ∧
    lookupFd (DeInit st t) st.old_client_fd = lookupFd t st.old_client_fd := by
  by_cases hc : 0 ≤ st.client_fd
  · simp [DeInit, hc, lookupFd_closeFd, h1, h2, h3, h4]
  · simp [DeInit, hc, lookupFd_closeFd, h1, h3]

/-- C10 witness: a port with listening descriptor 3, client descriptor 4
and retired descriptor 5; after `DeInit`, 3 and 4 are closed while 5 and
an unrelated descriptor 6 keep their bindings. -/
theorem C10_deinit_frame_witness :
    ((6 : Int) ≠ (3 : Int) ∧ (6 : Int) ≠ (4 : Int) ∧
     (5 : Int) ≠ (3 : Int) ∧ (5 : Int) ≠ (4 : Int)) ∧
    (lookupFd (DeInit ⟨3, 4, 5, 0, 1⟩ [(3, 0), (4, 1), (5, 2), (6, 7)]) 3 = none ∧
     ((0 : Int) ≤ 4 →
        lookupFd (DeInit ⟨3, 4, 5, 0, 1⟩ [(3, 0), (4, 1), (5, 2), (6, 7)]) 4 = none) ∧
     lookupFd (DeInit ⟨3, 4, 5, 0, 1⟩ [(3, 0), (4, 1), (5, 2), (6, 7)]) 6 =
       lookupFd [(3, 0), (4, 1), (5, 2), (6, 7)] 6 ∧
     lookupFd (DeInit ⟨3, 4, 5, 0, 1⟩ [(3, 0), (4, 1), (5, 2), (6, 7)]) 5 =
       lookupFd [(3, 0), (4, 1), (5, 2), (6, 7)] 5) :=
  ⟨⟨by decide, by decide, by decide, by decide⟩,
    C10_deinit_frame ⟨3, 4, 5, 0, 1⟩ [(3, 0), (4, 1), (5, 2), (6, 7)] 6
      (by decide) (by decide) (by decide) (by decide)⟩

set_option maxRecDepth 4000

/-- C4 counterexample: a connected port with zero budget performs a read
(call 0, one `recv`), gets nothing, and sets the budget to 256.  If reads
were skipped exactly `throttle_constant - 1 = 255` times between two
actual reads, the 256th subsequent call would perform a read; instead,
after 255 further calls the budget is still 1 and the 256th subsequent
call performs 0 reads. -/
theorem C4_counterexample :
    (RecvPackets ⟨3, 4, kNotConnectedFd, 0, 1⟩ ⟨8, 0, [], []⟩ 32
        [RecvRes.err Errno.EAGAIN]).reads = 1 ∧
    (recvStep ⟨8, 0, [], []⟩ 32 [RecvRes.err Errno.EAGAIN]
        ⟨3, 4, kNotConnectedFd, 0, 1⟩).recv_skip_cnt = RECV_SKIP_TICKS ∧
    (Nat.iterate (recvStep ⟨8, 0, [], []⟩ 32 [RecvRes.err Errno.EAGAIN]) 255
        (recvStep ⟨8, 0, [], []⟩ 32 [RecvRes.err Errno.EAGAIN]
          ⟨3, 4, kNotConnectedFd, 0, 1⟩)).recv_skip_cnt = 1 ∧
    (RecvPackets
        (Nat.iterate (recvStep ⟨8, 0, [], []⟩ 32 [RecvRes.err Errno.EAGAIN]) 255
          (recvStep ⟨8, 0, [], []⟩ 32 [RecvRes.err Errno.EAGAIN]
            ⟨3, 4, kNotConnectedFd, 0, 1⟩))
        ⟨8, 0, [], []⟩ 32 [RecvRes.err Errno.EAGAIN]).reads = 0 := by
  decide

/-- C4 (amended): after a receive call that produces zero packets the
poll-skip budget is set to the throttle constant (256); each subsequent
call with a nonzero budget decrements it and returns empty without
performing a read; and the underlying read is skipped exactly
`throttle_constant` (256, not 255) times between two actual read
attempts: the call after the empty one reads, calls 1..256 after it
perform no read, and the 257th performs a read again. -/
theorem C4_throttle_skips_256 (st : PortState) (al : Alloc) (cnt : Nat)
    (evs2 : List RecvRes)
    (hc : st.client_fd ≠ kNotConnectedFd) (hs : st.recv_skip_cnt = 0)
    (ha : al.avail ≠ 0) (hcnt : cnt ≠ 0) :
    (RecvPackets st al cnt (RecvRes.err Errno.EAGAIN :: evs2)).pkts = [] ∧
    (RecvPackets st al cnt (RecvRes.err Errno.EAGAIN :: evs2)).reads = 1 ∧
    (RecvPackets st al cnt (RecvRes.err Errno.EAGAIN :: evs2)).st.recv_skip_cnt =
      RECV_SKIP_TICKS ∧
    (∀ k, k < RECV_SKIP_TICKS →
      (Nat.iterate (recvStep al cnt (RecvRes.err Errno.EAGAIN :: evs2)) k
          (RecvPackets st al cnt (RecvRes.err Errno.EAGAIN :: evs2)).st).recv_skip_cnt =
        RECV_SKIP_TICKS - k ∧
      (RecvPackets
          (Nat.iterate (recvStep al cnt (RecvRes.err Errno.EAGAIN :: evs2)) k
            (RecvPackets st al cnt (RecvRes.err Errno.EAGAIN :: evs2)).st)
          al cnt (RecvRes.err Errno.EAGAIN :: evs2)).pkts = [] ∧
      (RecvPackets
          (Nat.iterate (recvStep al cnt (RecvRes.err Errno.EAGAIN :: evs2)) k
            (RecvPackets st al cnt (RecvRes.err Errno.EAGAIN :: evs2)).st)
          al cnt (RecvRes.err Errno.EAGAIN :: evs2)).reads = 0) ∧
    (RecvPackets
        (Nat.iterate (recvStep al cnt (RecvRes.err Errno.EAGAIN :: evs2)) RECV_SKIP_TICKS
          (RecvPackets st al cnt (RecvRes.err Errno.EAGAIN :: evs2)).st)
        al cnt (RecvRes.err Errno.EAGAIN :: evs2)).reads = 1 := by
  have hcall := recv_idle_call st al cnt evs2 hc hs ha hcnt
  have hst1 : (RecvPackets st al cnt (RecvRes.err Errno.EAGAIN :: evs2)).st =
      { st with recv_skip_cnt := RECV_SKIP_TICKS } := by rw [hcall]
  refine ⟨by rw [hcall], by rw [hcall], by rw [hcall], ?_, ?_⟩
  · intro k hk
    rw [hst1]
    rw [recv_skip_iterate al cnt (RecvRes.err Errno.EAGAIN :: evs2) k
      { st with recv_skip_cnt := RECV_SKIP_TICKS } hc (Nat.le_of_lt hk)]
    have hnz : RECV_SKIP_TICKS - k ≠ 0 := by
      simp only [RECV_SKIP_TICKS] at hk ⊢
      omega
    rw [recv_skip_call
      { ({ st with recv_skip_cnt := RECV_SKIP_TICKS } : PortState) with
          recv_skip_cnt :=
            ({ st with recv_skip_cnt := RECV_SKIP_TICKS } : PortState).recv_skip_cnt - k }
      al cnt (RecvRes.err Errno.EAGAIN :: evs2) hc hnz]
    exact ⟨rfl, rfl, rfl⟩
  · rw [hst1]
    rw [recv_skip_iterate al cnt (RecvRes.err Errno.EAGAIN :: evs2)
      RECV_SKIP_TICKS { st with recv_skip_cnt := RECV_SKIP_TICKS } hc (Nat.le_refl _)]
    rw [recv_idle_call
      { ({ st with recv_skip_cnt := RECV_SKIP_TICKS } : PortState) with
          recv_skip_cnt :=
            ({ st with recv_skip_cnt := RECV_SKIP_TICKS } : PortState).recv_skip_cnt -
              RECV_SKIP_TICKS }
      al cnt evs2 hc (by simp [RECV_SKIP_TICKS]) ha hcnt]

/-- C4 witness: a connected port (client descriptor 4), budget 0, one
buffer available, batch size 32: the idle call performs one read and sets
the budget to 256, and the 257th call after it performs a read again. -/
theorem C4_throttle_skips_256_witness :
    (PortState.mk 3 4 kNotConnectedFd 0 1).client_fd ≠ kNotConnectedFd ∧
    (PortState.mk 3 4 kNotConnectedFd 0 1).recv_skip_cnt = 0 ∧
    (Alloc.mk 8 0 [] []).avail ≠ 0 ∧
    (32 : Nat) ≠ 0 ∧
    (RecvPackets ⟨3, 4, kNotConnectedFd, 0, 1⟩ ⟨8, 0, [], []⟩ 32
        [RecvRes.err Errno.EAGAIN]).reads = 1 ∧
    (RecvPackets ⟨3, 4, kNotConnectedFd, 0, 1⟩ ⟨8, 0, [], []⟩ 32
        [RecvRes.err Errno.EAGAIN]).st.recv_skip_cnt = RECV_SKIP_TICKS ∧
    (RecvPackets
        (Nat.iterate (recvStep ⟨8, 0, [], []⟩ 32 [RecvRes.err Errno.EAGAIN])
          RECV_SKIP_TICKS
          (RecvPackets ⟨3, 4, kNotConnectedFd, 0, 1⟩ ⟨8, 0, [], []⟩ 32
            [RecvRes.err Errno.EAGAIN]).st)
        ⟨8, 0, [], []⟩ 32 [RecvRes.err Errno.EAGAIN]).reads = 1 :=
  ⟨by decide, by decide, by decide, by decide,
   (C4_throttle_skips_256 ⟨3, 4, kNotConnectedFd, 0, 1⟩ ⟨8, 0, [], []⟩ 32 []
      (by decide) (by decide) (by decide) (by decide)).2.1,
   (C4_throttle_skips_256 ⟨3, 4, kNotConnectedFd, 0, 1⟩ ⟨8, 0, [], []⟩ 32 []
      (by decide) (by decide) (by decide) (by decide)).2.2.1,
   (C4_throttle_skips_256 ⟨3, 4, kNotConnectedFd, 0, 1⟩ ⟨8, 0, [], []⟩ 32 []
      (by decide) (by decide) (by decide) (by decide)).2.2.2.2⟩

theorem idsFrom_length (n : Nat) : ∀ s : Nat, (idsFrom s n).length = n := by
  induction n with
  | zero => intro s; rfl
  | succ n ih => intro s; simp [idsFrom, ih]

/-- C5: with a connected client and zero skip budget, when the recv trace
delivers some datagrams and then fails with an errno other than
EAGAIN/EWOULDBLOCK/EINTR, `RecvPackets` frees the buffer allocated for the
failing read (it is appended to the allocator's freed list), performs the
closure transition (client slot to the sentinel, old descriptor to the
retiring slot, one new acceptance task), and stops: it returns exactly the
packets received before the error and consumes no event past the failing
read. -/
theorem C5_recv_error_closure (st : PortState) (al : Alloc) (cnt : Nat)
    (ns : List Nat) (e : Errno) (rest : List RecvRes)
    (hc : st.client_fd ≠ kNotConnectedFd) (hs : st.recv_skip_cnt = 0)
    (hpos : ∀ n ∈ ns, 0 < n) (hlen : ns.length < cnt) (havail : ns.length < al.avail)
    (he1 : e ≠ Errno.EAGAIN) (he2 : e ≠ Errno.EWOULDBLOCK) (he3 : e ≠ Errno.EINTR) :
    (RecvPackets st al cnt (ns.map RecvRes.ok ++ RecvRes.err e :: rest)).st.client_fd =
      kNotConnectedFd ∧
    (RecvPackets st al cnt (ns.map RecvRes.ok ++ RecvRes.err e :: rest)).st.old_client_fd =
      st.client_fd ∧
    (RecvPackets st al cnt (ns.map RecvRes.ok ++ RecvRes.err e :: rest)).st.accept_tasks =
      st.accept_tasks + 1 ∧
    (RecvPackets st al cnt (ns.map RecvRes.ok ++ RecvRes.err e :: rest)).pkts =
      (idsFrom al.nextId ns.length).zip ns ∧
    (RecvPackets st al cnt (ns.map RecvRes.ok ++ RecvRes.err e :: rest)).reads =
      ns.length + 1 ∧
    (RecvPackets st al cnt (ns.map RecvRes.ok ++ RecvRes.err e :: rest)).al.freed =
      al.freed ++ [al.nextId + ns.length] := by
  have hrun := recvLoop_data_then_err e rest he1 he2 he3 ns st al [] 0 cnt hpos
    (by simpa using hlen) havail
  unfold RecvPackets
  rw [if_neg hc, if_neg (by simp [hs])]
  rw [hrun]
  by_cases hns : ns.length = 0
  · obtain rfl := List.length_eq_zero.mp hns
    simp [CloseConnection, idsFrom]
  · have hZ : (([] : List (Nat × Nat)) ++ (idsFrom al.nextId ns.length).zip ns).length ≠ 0 := by
      simpa [List.length_zip, idsFrom_length] using hns
    rw [if_neg hZ]
    simp [CloseConnection]

/-- C5 witness: two datagrams (5 and 7 bytes) followed by ECONNRESET-like
errno 104: the two packets are returned, the third buffer is freed, the
closure transition runs, and the trailing event is not consumed. -/
theorem C5_recv_error_closure_witness :
    (PortState.mk 3 4 kNotConnectedFd 0 1).client_fd ≠ kNotConnectedFd ∧
    (PortState.mk 3 4 kNotConnectedFd 0 1).recv_skip_cnt = 0 ∧
    (∀ n ∈ [5, 7], 0 < n) ∧
    ([5, 7] : List Nat).length < 32 ∧
    ([5, 7] : List Nat).length < (Alloc.mk 8 0 [] []).avail ∧
    (Errno.other 104 ≠ Errno.EAGAIN ∧ Errno.other 104 ≠ Errno.EWOULDBLOCK ∧
      Errno.other 104 ≠ Errno.EINTR) ∧
    ((RecvPackets ⟨3, 4, kNotConnectedFd, 0, 1⟩ ⟨8, 0, [], []⟩ 32
        (([5, 7] : List Nat).map RecvRes.ok ++
          RecvRes.err (Errno.other 104) :: [RecvRes.ok 9])).st.client_fd =
        kNotConnectedFd ∧
     (RecvPackets ⟨3, 4, kNotConnectedFd, 0, 1⟩ ⟨8, 0, [], []⟩ 32
        (([5, 7] : List Nat).map RecvRes.ok ++
          RecvRes.err (Errno.other 104) :: [RecvRes.ok 9])).st.old_client_fd = 4 ∧
     (RecvPackets ⟨3, 4, kNotConnectedFd, 0, 1⟩ ⟨8, 0, [], []⟩ 32
        (([5, 7] : List Nat).map RecvRes.ok ++
          RecvRes.err (Errno.other 104) :: [RecvRes.ok 9])).st.accept_tasks = 1 + 1 ∧
     (RecvPackets ⟨3, 4, kNotConnectedFd, 0, 1⟩ ⟨8, 0, [], []⟩ 32
        (([5, 7] : List Nat).map RecvRes.ok ++
          RecvRes.err (Errno.other 104) :: [RecvRes.ok 9])).pkts =
        (idsFrom 0 ([5, 7] : List Nat).length).zip [5, 7] ∧
     (RecvPackets ⟨3, 4, kNotConnectedFd, 0, 1⟩ ⟨8, 0, [], []⟩ 32
        (([5, 7] : List Nat).map RecvRes.ok ++
          RecvRes.err (Errno.other 104) :: [RecvRes.ok 9])).reads =
        ([5, 7] : List Nat).length + 1 ∧
     (RecvPackets ⟨3, 4, kNotConnectedFd, 0, 1⟩ ⟨8, 0, [], []⟩ 32
        (([5, 7] : List Nat).map RecvRes.ok ++
          RecvRes.err (Errno.other 104) :: [RecvRes.ok 9])).al.freed =
        [] ++ [0 + ([5, 7] : List Nat).length]) :=
  ⟨by decide, by decide, by decide, by decide, by decide, ⟨by decide, by decide, by decide⟩,
    C5_recv_error_closure ⟨3, 4, kNotConnectedFd, 0, 1⟩ ⟨8, 0, [], []⟩ 32 [5, 7]
      (Errno.other 104) [RecvRes.ok 9] (by decide) (by decide) (by decide) (by decide)
      (by decide) (by decide) (by decide) (by decide)⟩

/-- C8: every buffer allocated during a `RecvPackets` call is either one
of the returned packets or was released back to the allocator: the ids
newly recorded as allocated are a permutation of the returned packets'
ids together with the ids newly recorded as freed (so each allocated
buffer is accounted exactly once, on every path). -/
theorem C8_no_buffer_leak (st : PortState) (al : Alloc) (cnt : Nat)
    (evs : List RecvRes) :
    ∃ P L F,
      (RecvPackets st al cnt evs).pkts = P ∧
      (RecvPackets st al cnt evs).al.allocated = al.allocated ++ L ∧
      (RecvPackets st al cnt evs).al.freed = al.freed ++ F ∧
      List.Perm L (P.map Prod.fst ++ F) := by
  unfold RecvPackets
  by_cases h1 : st.client_fd = kNotConnectedFd
  · exact ⟨[], [], [], by simp [h1]⟩
  · rw [if_neg h1]
    by_cases h2 : st.recv_skip_cnt ≠ 0
    · exact ⟨[], [], [], by simp [h2]⟩
    · rw [if_neg h2]
      obtain ⟨P, L, F, hP, hL, hF, hperm⟩ := recvLoop_accounting cnt evs st al [] 0
      refine ⟨P, L, F, ?_, ?_, ?_, hperm⟩
      · split
        · simpa using hP
        · simpa using hP
      · split
        · simpa using hL
        · simpa using hL
      · split
        · simpa using hF
        · simpa using hF

/-- C9: when the allocator is exhausted before any packet is received,
the call returns no packets without performing any read, and sets the
poll-skip budget to 256; consequently each of the next 256 receive calls
returns empty without attempting a read — whatever data is pending and
whatever allocator those later calls would get. -/
theorem C9_alloc_exhausted_throttle (st : PortState) (al : Alloc) (cnt : Nat)
    (evs : List RecvRes) (al2 : Alloc) (cnt2 : Nat) (evs2 : List RecvRes)
    (hc : st.client_fd ≠ kNotConnectedFd) (hs : st.recv_skip_cnt = 0)
    (ha : al.avail = 0) :
    (RecvPackets st al cnt evs).pkts = [] ∧
    (RecvPackets st al cnt evs).reads = 0 ∧
    (RecvPackets st al cnt evs).st.recv_skip_cnt = RECV_SKIP_TICKS ∧
    (∀ k, k < RECV_SKIP_TICKS →
      (RecvPackets
          (Nat.iterate (recvStep al2 cnt2 evs2) k (RecvPackets st al cnt evs).st)
          al2 cnt2 evs2).pkts = [] ∧
      (RecvPackets
          (Nat.iterate (recvStep al2 cnt2 evs2) k (RecvPackets st al cnt evs).st)
          al2 cnt2 evs2).reads = 0) := by
  have hr : RecvPackets st al cnt evs =
      ⟨{ st with recv_skip_cnt := RECV_SKIP_TICKS }, al, [], 0⟩ := by
    unfold RecvPackets
    rw [if_neg hc, if_neg (by simp [hs]), recvLoop_avail_zero cnt evs st al [] 0 ha]
    simp
  refine ⟨by rw [hr], by rw [hr], by rw [hr], ?_⟩
  intro k hk
  have hst1 : (RecvPackets st al cnt evs).st =
      { st with recv_skip_cnt := RECV_SKIP_TICKS } := by rw [hr]
  rw [hst1]
  rw [recv_skip_iterate al2 cnt2 evs2 k
    { st with recv_skip_cnt := RECV_SKIP_TICKS } hc (Nat.le_of_lt hk)]
  have hnz : RECV_SKIP_TICKS - k ≠ 0 := by
    simp only [RECV_SKIP_TICKS] at hk ⊢
    omega
  rw [recv_skip_call
    { ({ st with recv_skip_cnt := RECV_SKIP_TICKS } : PortState) with
        recv_skip_cnt :=
          ({ st with recv_skip_cnt := RECV_SKIP_TICKS } : PortState).recv_skip_cnt - k }
    al2 cnt2 evs2 hc hnz]
  exact ⟨rfl, rfl⟩

/-- C9 witness: exhausted allocator (0 buffers) with a datagram pending:
the call returns empty with 0 reads and budget 256, and the next call
(budget nonzero) again performs no read. -/
theorem C9_alloc_exhausted_throttle_witness :
    (PortState.mk 3 4 kNotConnectedFd 0 1).client_fd ≠ kNotConnectedFd ∧
    (PortState.mk 3 4 kNotConnectedFd 0 1).recv_skip_cnt = 0 ∧
    (Alloc.mk 0 0 [] []).avail = 0 ∧
    ((RecvPackets ⟨3, 4, kNotConnectedFd, 0, 1⟩ ⟨0, 0, [], []⟩ 32 [RecvRes.ok 9]).pkts = [] ∧
     (RecvPackets ⟨3, 4, kNotConnectedFd, 0, 1⟩ ⟨0, 0, [], []⟩ 32 [RecvRes.ok 9]).reads = 0 ∧
     (RecvPackets ⟨3, 4, kNotConnectedFd, 0, 1⟩ ⟨0, 0, [], []⟩ 32
        [RecvRes.ok 9]).st.recv_skip_cnt = RECV_SKIP_TICKS ∧
     (∀ k, k < RECV_SKIP_TICKS →
        (RecvPackets
            (Nat.iterate (recvStep ⟨8, 0, [], []⟩ 32 [RecvRes.ok 9]) k
              (RecvPackets ⟨3, 4, kNotConnectedFd, 0, 1⟩ ⟨0, 0, [], []⟩ 32
                [RecvRes.ok 9]).st)
            ⟨8, 0, [], []⟩ 32 [RecvRes.ok 9]).pkts = [] ∧
        (RecvPackets
            (Nat.iterate (recvStep ⟨8, 0, [], []⟩ 32 [RecvRes.ok 9]) k
              (RecvPackets ⟨3, 4, kNotConnectedFd, 0, 1⟩ ⟨0, 0, [], []⟩ 32
                [RecvRes.ok 9]).st)
            ⟨8, 0, [], []⟩ 32 [RecvRes.ok 9]).reads = 0)) :=
  ⟨by decide, by decide, by decide,
    C9_alloc_exhausted_throttle ⟨3, 4, kNotConnectedFd, 0, 1⟩ ⟨0, 0, [], []⟩ 32
      [RecvRes.ok 9] ⟨8, 0, [], []⟩ 32 [RecvRes.ok 9]
      (by decide) (by decide) (by decide)⟩
